import Mathlib

/-!
Verification of the resilient request layer of the Atlassian MCP servers.

This file gives a shallow embedding, in Lean, of the request-layer code:

* `ApiClient` (`src/unnamed/part_003`): the base HTTP client with retry,
  exponential backoff, a TTL response cache and rate-limit pacing;
* `ErrorHandler.handleApiError` (`src/src/core/ErrorHandler.js`): the
  status-code classifier producing a `recoverable` flag;
* `makeJiraRequest` (`src/src/jira_server.js`): the API-version fallback
  (410 Gone downgrading the default from v3 to v2);
* `checkV2ApiAvailability` (`src/src/confluence_server.js`): the one-shot
  v2-availability probe.

Asynchrony is modelled by explicit state passing.  The network is a
`Transport`, a function from the index of the HTTP attempt (an
instrumentation counter threaded through the state) to the outcome the
`fetch` call would produce.  Wall-clock time (`Date.now()`) is a `now`
parameter, held constant within one call of a request function: the claims
under scrutiny only depend on the relative times of distinct calls.
Observable actions (invoking the rate limiter, performing a fetch,
sleeping for backoff) are recorded in an event trace.
-/

namespace AtlassianMcp

/-- JavaScript values, as far as the request layer inspects them.  Parsed
response bodies flow through the cache and are only ever tested for
truthiness (`if (cached) return cached;`) and stored/returned whole, so
structured values (objects, arrays) are abstracted to an opaque
identifier that is always truthy, which matches JavaScript semantics. -/
inductive JSVal where
  | jnull
  | jbool (b : Bool)
  | jnum (n : Int)
  | jstr (s : String)
  | jobj (id : Nat)
  deriving DecidableEq, Repr

/-- JavaScript truthiness of a value: `null`, `false`, `0` and the empty
string are falsy; objects and arrays are always truthy. -/
def JSVal.truthy : JSVal → Bool
  | .jnull => false
  | .jbool b => b
  | .jnum n => decide (n ≠ 0)
  | .jstr s => decide (s ≠ "")
  | .jobj _ => true

/-- JavaScript `x || d` for an optional numeric configuration field:
`undefined` and `0` are falsy, so both fall back to the default.  Used by
the `ApiClient` constructor (`config.maxRetries || 3` etc.) and by
`makeJiraRequest` (`apiVersion || this.apiVersion`). -/
def jsOrNat : Option Nat → Nat → Nat
  | none, d => d
  | some v, d => if v = 0 then d else v

/-- JavaScript `!x` for an optional numeric argument (`!apiVersion` in
`makeJiraRequest`): true when the argument is absent or `0`. -/
def jsNatFalsy : Option Nat → Bool
  | none => true
  | some v => decide (v = 0)

/-- JavaScript `!x` for an optional string (`!options.method`): true when
the field is absent or the empty string. -/
def jsStrFalsy : Option String → Bool
  | none => true
  | some s => decide (s = "")

/-- Request options as inspected by `ApiClient.request`: only the `method`
field steers control flow (cache gating); the body is carried opaquely and
takes part in the cache key (`JSON.stringify(options)`). -/
structure ReqOptions where
  method : Option String := none
  body : Option String := none
  deriving DecidableEq, Repr

/-- Condition of part_003 lines 153 and 207:
`options.method === 'GET' || !options.method`.  Line 207 tests
`config.method`, but `config` is `options` spread over defaults that carry
no `method` field, so the two tests agree. -/
def cacheCheckMethod (o : ReqOptions) : Bool :=
  decide (o.method = some "GET") || jsStrFalsy o.method

/-- One stored cache entry (`{ data, timestamp }`, part_003 lines 134-141). -/
structure CacheEntry where
  data : JSVal
  timestamp : Nat
  deriving DecidableEq, Repr

/-- Cache keys: the source builds the string
`url + ':' + JSON.stringify(options)`; since `JSON.stringify` is injective
on the option records we model, the pair is a faithful rendering. -/
abbrev CacheKey : Type := String × ReqOptions

/-- Lookup in an association list, modelling `Map.get`. -/
def alistFind {α β : Type} [DecidableEq α] : List (α × β) → α → Option β
  | [], _ => none
  | (k, v) :: rest, key => if k = key then some v else alistFind rest key

/-- Overwrite-or-insert in an association list, modelling `Map.set`. -/
def alistSet {α β : Type} [DecidableEq α] : List (α × β) → α → β → List (α × β)
  | [], key, v => [(key, v)]
  | (k, w) :: rest, key, v =>
      if k = key then (key, v) :: rest else (k, w) :: alistSet rest key v

/-- Deletion from an association list, modelling `Map.delete`. -/
def alistErase {α β : Type} [DecidableEq α] : List (α × β) → α → List (α × β)
  | [], _ => []
  | (k, w) :: rest, key => if k = key then rest else (k, w) :: alistErase rest key

/-- Constructor argument of `ApiClient` (part_003 lines 8-24).  `none`
renders an absent (`undefined`) field.  `enableCache` records the JS
truthiness of `config.enableCache` (absent means falsy). -/
structure RawConfig where
  baseUrl : String := ""
  maxRetries : Option Nat := none
  retryDelay : Option Nat := none
  timeout : Option Nat := none
  rateLimitDelay : Option Nat := none
  enableCache : Bool := false
  cacheTimeout : Option Nat := none
  deriving DecidableEq, Repr

/-- State of one `ApiClient` instance.  `cacheEnabled` renders
`this.cache !== null` (the constructor sets `this.cache` to a `Map` or to
`null`); `fetchCount` is the instrumentation counter indexing the
transport.  The interceptor lists are omitted: the constructor initialises
them empty and no code in the repository registers one, so
`applyRequestInterceptors`/`applyResponseInterceptors` are identities. -/
structure ApiClient where
  baseUrl : String
  maxRetries : Nat
  retryDelay : Nat
  timeout : Nat
  rateLimitDelay : Nat
  lastRequestTime : Nat
  cacheEnabled : Bool
  cache : List (CacheKey × CacheEntry)
  cacheTimeout : Nat
  fetchCount : Nat
  deriving DecidableEq, Repr

/-- The `ApiClient` constructor (part_003 lines 8-24):
`maxRetries = config.maxRetries || 3`, `retryDelay = config.retryDelay ||
1000`, `timeout = config.timeout || 30000`, `rateLimitDelay =
config.rateLimitDelay || 0`, `lastRequestTime = 0`,
`cache = config.enableCache ? new Map() : null`,
`cacheTimeout = config.cacheTimeout || 5 * 60 * 1000`. -/
def mkApiClient (config : RawConfig) : ApiClient :=
  { baseUrl := config.baseUrl
    maxRetries := jsOrNat config.maxRetries 3
    retryDelay := jsOrNat config.retryDelay 1000
    timeout := jsOrNat config.timeout 30000
    rateLimitDelay := jsOrNat config.rateLimitDelay 0
    lastRequestTime := 0
    cacheEnabled := config.enableCache
    cache := []
    cacheTimeout := jsOrNat config.cacheTimeout (5 * 60 * 1000)
    fetchCount := 0 }

/-- Outcome the transport produces for one `fetch` call inside
`ApiClient.request`: an HTTP response with parsed body, an abort by the
timeout controller (`AbortError`), or a thrown network error. -/
inductive FetchOutcome where
  | httpResp (status : Nat) (body : JSVal)
  | abortTimeout
  | netError (msg : String)
  deriving DecidableEq, Repr

/-- A transport: the outcome of the n-th HTTP attempt of the client. -/
def Transport : Type := Nat → FetchOutcome

/-- Errors thrown out of one attempt of `ApiClient.request`:
`apiError s details` is `ApiError` with numeric `status` (part_003 lines
196-200), `timeoutError` is `ApiError('Request timeout', 'TIMEOUT', null)`
whose `status` is the non-numeric string `'TIMEOUT'` (line 218), and
`fetchError` is any other thrown error, which carries no `status`. -/
inductive ReqError where
  | apiError (status : Nat) (details : Option JSVal)
  | timeoutError
  | fetchError (msg : String)
  deriving DecidableEq, Repr

/-- The no-retry test of part_003 line 227:
`error.status && error.status < 500 && error.status !== 429`.  For
`timeoutError` the JS comparison `'TIMEOUT' < 500` is false (NaN), and a
fetch error has no `status` field (falsy), so both fall through to the
retry path; an HTTP status below 500 other than 429 is thrown at once. -/
def noRetryThrow : ReqError → Bool
  | .apiError s _ => decide (0 < s ∧ s < 500 ∧ s ≠ 429)
  | .timeoutError => false
  | .fetchError _ => false

/-- One attempt body (part_003 lines 179-221): a response with
`response.ok` (status 200-299) yields the parsed data; a non-ok response
throws `ApiError(status)` carrying the parsed error body as details; an
abort throws the timeout error; any other fetch failure is rethrown. -/
def attemptOnce : FetchOutcome → Except ReqError JSVal
  | .httpResp status body =>
      if 200 ≤ status ∧ status ≤ 299 then Except.ok body
      else Except.error (ReqError.apiError status (some body))
  | .abortTimeout => Except.error ReqError.timeoutError
  | .netError _ => Except.error (ReqError.fetchError "fetch failed")

/-- Observable events of one `ApiClient.request` call. -/
inductive Ev where
  | rateLimit
  | rlSleep (ms : Nat)
  | fetchCall
  | backoff (ms : Nat)
  deriving DecidableEq, Repr

/-- The backoff delays recorded in a trace, in order. -/
def backoffDelays (t : List Ev) : List Nat :=
  t.filterMap fun e =>
    match e with
    | Ev.backoff d => some d
    | _ => none

/-- Rate limiting (part_003 lines 97-106): when `rateLimitDelay > 0` and
less than that interval has elapsed since `lastRequestTime`, sleep for the
remainder; then record the new last-request time.  The `Ev.rateLimit`
event marks the invocation of `applyRateLimit`. -/
def applyRateLimit (c : ApiClient) (now : Nat) : ApiClient × List Ev :=
  if c.rateLimitDelay > 0 then
    let timeSince := now - c.lastRequestTime
    let evs :=
      if timeSince < c.rateLimitDelay then
        [Ev.rateLimit, Ev.rlSleep (c.rateLimitDelay - timeSince)]
      else [Ev.rateLimit]
    ({ c with lastRequestTime := now }, evs)
  else (c, [Ev.rateLimit])

/-- Cache lookup (part_003 lines 113-127): with no cache, `null`; a stored
entry is returned while `now - timestamp < cacheTimeout`, otherwise the
expired entry is deleted on the spot and `null` is returned. -/
def getCached (c : ApiClient) (key : CacheKey) (now : Nat) :
    Option JSVal × ApiClient :=
  if !c.cacheEnabled then (none, c)
  else
    match alistFind c.cache key with
    | some entry =>
        if now - entry.timestamp < c.cacheTimeout then (some entry.data, c)
        else (none, { c with cache := alistErase c.cache key })
    | none => (none, c)

/-- Cache store (part_003 lines 134-141): with a cache present, overwrite
the key with the data stamped at the current time. -/
def setCached (c : ApiClient) (key : CacheKey) (d : JSVal) (now : Nat) : ApiClient :=
  if c.cacheEnabled then
    { c with cache := alistSet c.cache key { data := d, timestamp := now } }
  else c

/-- Result of one `ApiClient.request` call: the returned value or thrown
error, the client state after the call, and the event trace. -/
structure ReqOutcome where
  result : Except ReqError JSVal
  client : ApiClient
  trace : List Ev
  deriving Repr

/-- The retry loop of part_003 lines 176-239, by remaining iterations
(`fuel`); the loop is entered with `fuel = maxRetries + 1`, matching
`for (let attempt = 0; attempt <= this.maxRetries; attempt++)`.  Each
iteration performs one fetch; on success the data is cached for GET-like
requests and returned; a failure passing the no-retry test is thrown at
once; otherwise, when iterations remain (`attempt < maxRetries`), the loop
sleeps `retryDelay * 2 ^ attempt` and continues, and after the final
iteration the last error is thrown. -/
def requestLoop (ts : Transport) (now : Nat) (key : CacheKey)
    (cacheable : Bool) : Nat → Nat → ApiClient → ReqOutcome
  | _, 0, c => ⟨Except.error (ReqError.fetchError "unreachable"), c, []⟩
  | attempt, fuel + 1, c =>
      let outcome := ts c.fetchCount
      let c1 : ApiClient := { c with fetchCount := c.fetchCount + 1 }
      match attemptOnce outcome with
      | Except.ok data =>
          let c2 := if cacheable then setCached c1 key data now else c1
          ⟨Except.ok data, c2, [Ev.fetchCall]⟩
      | Except.error e =>
          if noRetryThrow e then ⟨Except.error e, c1, [Ev.fetchCall]⟩
          else
            match fuel with
            | 0 => ⟨Except.error e, c1, [Ev.fetchCall]⟩
            | f + 1 =>
                let d := c1.retryDelay * 2 ^ attempt
                let rest := requestLoop ts now key cacheable (attempt + 1) (f + 1) c1
                ⟨rest.result, rest.client, Ev.fetchCall :: Ev.backoff d :: rest.trace⟩

/-- Boolean test that one character list starts with another; used to
render `endpoint.startsWith('http')` in a form the proofs can compute. -/
def charsStartWith : List Char → List Char → Bool
  | _, [] => true
  | [], _ :: _ => false
  | c :: cs, p :: ps => c = p && charsStartWith cs ps

/-- String rendering of `s.startsWith(pre)`. -/
def strStartsWith (s pre : String) : Bool := charsStartWith s.data pre.data

/-- Resolution of the target URL (part_003 line 150):
`endpoint.startsWith('http') ? endpoint : this.baseUrl + endpoint`. -/
def urlOf (baseUrl endpoint : String) : String :=
  if strStartsWith endpoint "http" then endpoint else baseUrl ++ endpoint

/-- The non-cached tail of `ApiClient.request`: rate limiting followed by
the retry loop (part_003 lines 161-239). -/
def requestMain (ts : Transport) (c : ApiClient) (now : Nat) (key : CacheKey)
    (cacheable : Bool) : ReqOutcome :=
  let p := applyRateLimit c now
  let r := requestLoop ts now key cacheable 0 (p.1.maxRetries + 1) p.1
  ⟨r.result, r.client, p.2 ++ r.trace⟩

/-- `ApiClient.request` (part_003 lines 149-240): resolve the URL; for a
GET-like method, consult the cache and return a truthy cached value
immediately (before any rate-limit wait); otherwise run the rate limiter
and the retry loop. -/
def request (ts : Transport) (c : ApiClient) (now : Nat)
    (endpoint : String) (options : ReqOptions) : ReqOutcome :=
  let key : CacheKey := (urlOf c.baseUrl endpoint, options)
  let cacheable := cacheCheckMethod options
  let p := if cacheable then getCached c key now else (none, c)
  match p.1 with
  | some d =>
      if d.truthy then ⟨Except.ok d, p.2, []⟩
      else requestMain ts p.2 now key cacheable
  | none => requestMain ts p.2 now key cacheable

/-! ErrorHandler (`src/src/core/ErrorHandler.js`, lines 94-122). -/

/-- The record returned by `ErrorHandler.handleApiError`.  The `details`
object (which only receives `retryAfter` for a 429) is omitted: no claim
inspects it. -/
structure HandledError where
  name : String
  message : String
  code : Nat
  recoverable : Bool
  deriving DecidableEq, Repr

/-- `ErrorHandler.handleApiError` (lines 94-122) for an error carrying a
numeric HTTP `status`: the message is rewritten by the else-if chain on
the status, and `recoverable` is `status !== 401 && status !== 403`. -/
def handleApiError (status : Nat) (message : String) : HandledError :=
  let msg :=
    if status = 400 then "Bad Request: " ++ message
    else if status = 401 then "Authentication failed. Please check your API credentials."
    else if status = 403 then "Permission denied. You do not have access to this resource."
    else if status = 404 then "Resource not found. Please check the ID or URL."
    else if status = 429 then "Rate limit exceeded. Please try again later."
    else if 500 ≤ status then "Server error. The service is temporarily unavailable."
    else message
  { name := "ApiError"
    message := msg
    code := status
    recoverable := decide (status ≠ 401 ∧ status ≠ 403) }

/-! The Jira server's version negotiation
(`src/src/jira_server.js`, `makeJiraRequest`, lines 240-279). -/

/-- One HTTP response as `makeJiraRequest` consumes it: the status, the
value `response.json()` parses to on the success path, and the text
`response.text()` yields on the error paths.  The surrounding catch block
of the source only rewraps connection errors and attaches debug metadata;
it does not alter the 410-fallback control flow and is not modelled. -/
structure JiraHttpResp where
  status : Nat
  jsonBody : JSVal
  textBody : String
  deriving DecidableEq, Repr

/-- A Jira transport: the response to the n-th fetch the server issues. -/
def JiraTransport : Type := Nat → JiraHttpResp

/-- Errors thrown by `makeJiraRequest`.  Message extraction from JSON
error bodies is collapsed to the raw response text it starts from; no
claim concerns the message wording. -/
inductive JiraError where
  | gone (version : Nat) (text : String)
  | authFailed (text : String)
  | notFound (text : String)
  | apiError (status : Nat) (text : String)
  deriving DecidableEq, Repr

/-- Mutable state of the `JiraMCPServer` that `makeJiraRequest` touches:
the base URL, the instance default `this.apiVersion` (3 after
`normalizeJiraUrl` for a bare base URL), and the instrumentation counter
of fetches issued. -/
structure JiraState where
  baseUrl : String
  apiVersion : Nat
  callCount : Nat
  deriving DecidableEq, Repr

/-- URL construction of `makeJiraRequest` (line 243):
baseUrl + "/rest/api/" + version + endpoint. -/
def jiraUrl (baseUrl : String) (version : Nat) (endpoint : String) : String :=
  baseUrl ++ "/rest/api/" ++ toString version ++ endpoint

/-- One logged request of `makeJiraRequest`: the resolved version, the
URL fetched, and the endpoint/options passed (recorded to state that the
fallback retry reuses them unchanged). -/
structure JiraReqLog where
  version : Nat
  url : String
  endpoint : String
  options : ReqOptions
  deriving DecidableEq, Repr

/-- Result of a `makeJiraRequest` call: value or thrown error, the server
state afterwards, and the log of HTTP requests performed. -/
structure JiraOutcome where
  result : Except JiraError JSVal
  state : JiraState
  log : List JiraReqLog
  deriving Repr

/-- `makeJiraRequest` (jira_server.js lines 240-279 and 310-345), with a
fuel bound for the self-recursion (the fallback calls itself once with an
explicit version, which cannot recurse again).  Control flow:
`version = apiVersion || this.apiVersion`; on a 410 response, when
`version === 3 && !apiVersion`, set `this.apiVersion = 2` and reissue the
same endpoint and options pinned to version 2; otherwise throw.  A 401 or
404 throws its dedicated error; any other non-ok status throws a generic
API error; an ok response returns the parsed JSON body. -/
def makeJiraRequestFuel (ts : JiraTransport) :
    Nat → JiraState → String → ReqOptions → Option Nat → JiraOutcome
  | 0, st, _, _, _ => ⟨Except.error (JiraError.apiError 0 "unreachable"), st, []⟩
  | fuel + 1, st, endpoint, options, apiVersion =>
      let version := jsOrNat apiVersion st.apiVersion
      let url := jiraUrl st.baseUrl version endpoint
      let resp := ts st.callCount
      let st1 : JiraState := { st with callCount := st.callCount + 1 }
      let entry : JiraReqLog := ⟨version, url, endpoint, options⟩
      if resp.status = 410 then
        if version = 3 ∧ jsNatFalsy apiVersion then
          let st2 : JiraState := { st1 with apiVersion := 2 }
          let rest := makeJiraRequestFuel ts fuel st2 endpoint options (some 2)
          ⟨rest.result, rest.state, entry :: rest.log⟩
        else ⟨Except.error (JiraError.gone version resp.textBody), st1, [entry]⟩
      else if resp.status = 401 then
        ⟨Except.error (JiraError.authFailed resp.textBody), st1, [entry]⟩
      else if resp.status = 404 then
        ⟨Except.error (JiraError.notFound resp.textBody), st1, [entry]⟩
      else if ¬(200 ≤ resp.status ∧ resp.status ≤ 299) then
        ⟨Except.error (JiraError.apiError resp.status resp.textBody), st1, [entry]⟩
      else ⟨Except.ok resp.jsonBody, st1, [entry]⟩

/-- `makeJiraRequest` proper: recursion depth 2 suffices because the one
recursive call pins `apiVersion` to 2, whose truthiness disables any
further fallback. -/
def makeJiraRequest (ts : JiraTransport) (st : JiraState) (endpoint : String)
    (options : ReqOptions) (apiVersion : Option Nat) : JiraOutcome :=
  makeJiraRequestFuel ts 2 st endpoint options apiVersion

/-! The Confluence server's v2 probe
(`src/src/confluence_server.js`, `checkV2ApiAvailability`, lines 1600-1631). -/

/-- Outcome of the probe fetch: an HTTP response (only `ok`, derived from
the status, is consumed) or a thrown fetch error. -/
inductive ProbeOutcome where
  | httpResp (status : Nat)
  | fetchThrow (msg : String)
  deriving DecidableEq, Repr

/-- State of the Confluence server that the probe touches:
`this._v2ApiAvailable` (initialised `null` in the constructor) and the
instrumentation counter of probe fetches issued. -/
structure ConfluenceState where
  v2ApiAvailable : Option Bool
  probeCount : Nat
  deriving DecidableEq, Repr

/-- `checkV2ApiAvailability` (lines 1600-1631): a non-null cached value is
returned as is with no fetch; otherwise one probe fetch is performed and
`_v2ApiAvailable` is set to `response.ok`, or to `false` when the fetch
throws, and that boolean is returned. -/
def checkV2ApiAvailability (ts : Nat → ProbeOutcome) (st : ConfluenceState) :
    Bool × ConfluenceState :=
  match st.v2ApiAvailable with
  | some b => (b, st)
  | none =>
      match ts st.probeCount with
      | .httpResp status =>
          let ok := decide (200 ≤ status ∧ status ≤ 299)
          (ok, { v2ApiAvailable := some ok, probeCount := st.probeCount + 1 })
      | .fetchThrow _ =>
          (false, { v2ApiAvailable := some false, probeCount := st.probeCount + 1 })

/-! Derived definitions used to state and prove the properties. -/

/-- The client state `applyRateLimit` leaves behind: the last-request time
is stamped exactly when rate limiting is active. -/
def rlUpdate (c : ApiClient) (now : Nat) : ApiClient :=
  { c with lastRequestTime :=
      if c.rateLimitDelay > 0 then now else c.lastRequestTime }

/-- The trace `applyRateLimit` emits. -/
def rlTrace (c : ApiClient) (now : Nat) : List Ev :=
  if c.rateLimitDelay > 0 then
    if now - c.lastRequestTime < c.rateLimitDelay then
      [Ev.rateLimit, Ev.rlSleep (c.rateLimitDelay - (now - c.lastRequestTime))]
    else [Ev.rateLimit]
  else [Ev.rateLimit]

/-- An outcome on which the retry loop neither succeeds nor throws at
once: the attempt fails and the failure does not pass the no-retry test. -/
def retriableOutcome (o : FetchOutcome) : Bool :=
  match attemptOnce o with
  | Except.ok _ => false
  | Except.error e => !noRetryThrow e

/-- The error an outcome produces (the `lastError` the loop rethrows when
the final attempt fails). -/
def lastErrorOf (o : FetchOutcome) : ReqError :=
  match attemptOnce o with
  | Except.ok _ => ReqError.fetchError "not an error"
  | Except.error e => e

/-- Expected trace of a run of the retry loop in which every attempt fails
with a retriable error, starting at the given attempt index with the given
iterations left: a fetch per iteration, separated by backoff sleeps of
`retryDelay * 2 ^ attempt`. -/
def failTrace (rd : Nat) : Nat → Nat → List Ev
  | _, 0 => []
  | attempt, fuel + 1 =>
      match fuel with
      | 0 => [Ev.fetchCall]
      | f + 1 =>
          Ev.fetchCall :: Ev.backoff (rd * 2 ^ attempt) ::
            failTrace rd (attempt + 1) (f + 1)

/-! Concrete scenario objects used by witnesses and counterexamples. -/

/-- A client built with only a base URL: every other option takes its
constructor default. -/
def defaultClient : ApiClient := mkApiClient { baseUrl := "https://jira.example" }

/-- A client with the response cache switched on and every other option at
its default. -/
def cachingClient : ApiClient :=
  mkApiClient { baseUrl := "https://jira.example", enableCache := true }

/-- A transport answering every attempt with HTTP 500. -/
def failing500 : Transport := fun _ => FetchOutcome.httpResp 500 (JSVal.jobj 0)

/-- A transport answering every attempt with HTTP 401. -/
def always401 : Transport := fun _ => FetchOutcome.httpResp 401 (JSVal.jobj 1)

/-- A transport answering every attempt with HTTP 404. -/
def always404 : Transport := fun _ => FetchOutcome.httpResp 404 (JSVal.jobj 2)

/-- A transport answering every attempt with HTTP 200 and a truthy JSON
object. -/
def ok200 : Transport := fun _ => FetchOutcome.httpResp 200 (JSVal.jobj 7)

/-- A transport answering every attempt with HTTP 200 and an empty text
body, a falsy value. -/
def ok200falsy : Transport := fun _ => FetchOutcome.httpResp 200 (JSVal.jstr "")

/-- A transport answering the first attempt with one object and every
later attempt with another, to tell the two network calls apart. -/
def ok200seq : Transport := fun n =>
  if n = 0 then FetchOutcome.httpResp 200 (JSVal.jobj 7)
  else FetchOutcome.httpResp 200 (JSVal.jobj 8)

/-- GET options, the idempotent descriptor shape. -/
def getOpts : ReqOptions := { method := some "GET" }

/-- A Jira transport answering every request with 410 Gone. -/
def jiraAll410 : JiraTransport :=
  fun _ => { status := 410, jsonBody := JSVal.jnull, textBody := "gone" }

/-- A Jira transport answering the first request with 410 and later ones
with 200. -/
def jira410then200 : JiraTransport := fun n =>
  if n = 0 then { status := 410, jsonBody := JSVal.jnull, textBody := "gone" }
  else { status := 200, jsonBody := JSVal.jobj 9, textBody := "" }

/-- A Jira server freshly initialised against a bare base URL: default
API version 3, no fetches issued yet. -/
def jiraFresh : JiraState := { baseUrl := "https://jira.example", apiVersion := 3, callCount := 0 }

/-- A probe transport answering with HTTP 200. -/
def probeOk : Nat → ProbeOutcome := fun _ => ProbeOutcome.httpResp 200

/-- A probe transport that throws. -/
def probeThrow : Nat → ProbeOutcome := fun _ => ProbeOutcome.fetchThrow "ECONNREFUSED"

/-- A Confluence server before any probe. -/
def confluenceFresh : ConfluenceState := { v2ApiAvailable := none, probeCount := 0 }

/-- The outcome `makeJiraRequest` produces from a single response when no
fallback fires: the status dispatch of lines 263-345 of jira_server.js. -/
def jiraOneShot (resp : JiraHttpResp) (version : Nat) : Except JiraError JSVal :=
  if resp.status = 410 then Except.error (JiraError.gone version resp.textBody)
  else if resp.status = 401 then Except.error (JiraError.authFailed resp.textBody)
  else if resp.status = 404 then Except.error (JiraError.notFound resp.textBody)
  else if ¬(200 ≤ resp.status ∧ resp.status ≤ 299) then
    Except.error (JiraError.apiError resp.status resp.textBody)
  else Except.ok resp.jsonBody

/-! Helper lemmas. -/

lemma applyRateLimit_eq (c : ApiClient) (now : Nat) :
    applyRateLimit c now = (rlUpdate c now, rlTrace c now) := by
  unfold applyRateLimit rlUpdate rlTrace
  by_cases h : c.rateLimitDelay > 0 <;> simp [h]

lemma rlUpdate_fields (c : ApiClient) (now : Nat) :
    (rlUpdate c now).baseUrl = c.baseUrl ∧
    (rlUpdate c now).maxRetries = c.maxRetries ∧
    (rlUpdate c now).retryDelay = c.retryDelay ∧
    (rlUpdate c now).cacheEnabled = c.cacheEnabled ∧
    (rlUpdate c now).cache = c.cache ∧
    (rlUpdate c now).cacheTimeout = c.cacheTimeout ∧
    (rlUpdate c now).fetchCount = c.fetchCount := by
  unfold rlUpdate
  exact ⟨rfl, rfl, rfl, rfl, rfl, rfl, rfl⟩

lemma rlTrace_count_fetch (c : ApiClient) (now : Nat) :
    (rlTrace c now).count Ev.fetchCall = 0 := by
  unfold rlTrace
  split
  · split <;> rfl
  · rfl

lemma rlTrace_backoffs (c : ApiClient) (now : Nat) :
    backoffDelays (rlTrace c now) = [] := by
  unfold rlTrace backoffDelays
  split
  · split <;> rfl
  · rfl

lemma backoffDelays_append (s t : List Ev) :
    backoffDelays (s ++ t) = backoffDelays s ++ backoffDelays t := by
  unfold backoffDelays
  exact List.filterMap_append s t _

lemma getCached_empty (c : ApiClient) (key : CacheKey) (now : Nat)
    (h : c.cache = []) : getCached c key now = (none, c) := by
  unfold getCached
  rw [h]
  split <;> simp [alistFind]

lemma request_eq_main_of_empty (ts : Transport) (c : ApiClient) (now : Nat)
    (endpoint : String) (options : ReqOptions) (h : c.cache = []) :
    request ts c now endpoint options =
      requestMain ts c now (urlOf c.baseUrl endpoint, options)
        (cacheCheckMethod options) := by
  by_cases hc : cacheCheckMethod options = true <;>
    simp [request, hc, getCached_empty c _ now h]

lemma requestLoop_firstOk (ts : Transport) (now : Nat) (key : CacheKey)
    (cacheable : Bool) (attempt fuel : Nat) (c : ApiClient) (s : Nat) (d : JSVal)
    (hts : ts c.fetchCount = FetchOutcome.httpResp s d)
    (hok : 200 ≤ s ∧ s ≤ 299) :
    requestLoop ts now key cacheable attempt (fuel + 1) c =
      ⟨Except.ok d,
       (if cacheable then
          setCached { c with fetchCount := c.fetchCount + 1 } key d now
        else { c with fetchCount := c.fetchCount + 1 }),
       [Ev.fetchCall]⟩ := by
  unfold requestLoop
  rw [hts]
  simp [attemptOnce, hok]

lemma requestLoop_firstThrow (ts : Transport) (now : Nat) (key : CacheKey)
    (cacheable : Bool) (attempt fuel : Nat) (c : ApiClient) (s : Nat) (d : JSVal)
    (hts : ts c.fetchCount = FetchOutcome.httpResp s d)
    (hnok : ¬(200 ≤ s ∧ s ≤ 299)) (h0 : 0 < s) (h5 : s < 500) (h429 : s ≠ 429) :
    requestLoop ts now key cacheable attempt (fuel + 1) c =
      ⟨Except.error (ReqError.apiError s (some d)),
       { c with fetchCount := c.fetchCount + 1 }, [Ev.fetchCall]⟩ := by
  unfold requestLoop
  rw [hts]
  simp [attemptOnce, hnok, noRetryThrow, h0, h5, h429]

lemma requestLoop_allRetriable (ts : Transport) (now : Nat) (key : CacheKey)
    (cb : Bool) (hts : ∀ n, retriableOutcome (ts n) = true) :
    ∀ (fuel attempt : Nat) (c : ApiClient),
      requestLoop ts now key cb attempt (fuel + 1) c =
        ⟨Except.error (lastErrorOf (ts (c.fetchCount + fuel))),
         { c with fetchCount := c.fetchCount + (fuel + 1) },
         failTrace c.retryDelay attempt (fuel + 1)⟩ := by
  intro fuel
  induction fuel with
  | zero =>
      intro attempt c
      have h := hts c.fetchCount
      unfold retriableOutcome at h
      unfold requestLoop lastErrorOf failTrace
      cases he : attemptOnce (ts c.fetchCount) with
      | ok a => rw [he] at h; simp at h
      | error e =>
          rw [he] at h
          simp at h
          simp [he, h]
  | succ f ih =>
      intro attempt c
      have h := hts c.fetchCount
      unfold retriableOutcome at h
      unfold requestLoop lastErrorOf failTrace
      cases he : attemptOnce (ts c.fetchCount) with
      | ok a => rw [he] at h; simp at h
      | error e =>
          rw [he] at h
          simp at h
          simp only [he, h]
          rw [ih (attempt + 1) { c with fetchCount := c.fetchCount + 1 }]
          simp [lastErrorOf, failTrace, Nat.add_assoc, Nat.add_comm 1 f]
          omega

lemma failTrace_count (rd : Nat) :
    ∀ (f a : Nat), (failTrace rd a f).count Ev.fetchCall = f := by
  intro f
  induction f with
  | zero => intro a; simp [failTrace]
  | succ f ih =>
      intro a
      cases f with
      | zero => simp [failTrace]
      | succ g =>
          have := ih (a + 1)
          simp [failTrace, List.count_cons] at this ⊢
          omega

lemma failTrace_backoffs (rd : Nat) :
    ∀ (f a : Nat),
      backoffDelays (failTrace rd a (f + 1)) =
        (List.range f).map (fun i => rd * 2 ^ (a + i)) := by
  intro f
  induction f with
  | zero => intro a; simp [failTrace, backoffDelays]
  | succ g ih =>
      intro a
      have hrec := ih (a + 1)
      simp only [failTrace, backoffDelays, List.filterMap_cons] at hrec ⊢
      rw [hrec, List.range_succ_eq_map, List.map_cons, List.map_map]
      simp
      intro i _
      omega

lemma requestMain_allRetriable (ts : Transport) (now : Nat) (key : CacheKey)
    (cb : Bool) (c : ApiClient)
    (hts : ∀ n, retriableOutcome (ts n) = true) :
    requestMain ts c now key cb =
      ⟨Except.error (lastErrorOf (ts (c.fetchCount + c.maxRetries))),
       { rlUpdate c now with fetchCount := c.fetchCount + (c.maxRetries + 1) },
       rlTrace c now ++ failTrace c.retryDelay 0 (c.maxRetries + 1)⟩ := by
  unfold requestMain
  rw [applyRateLimit_eq]
  dsimp only
  rw [requestLoop_allRetriable ts now key cb hts (rlUpdate c now).maxRetries 0
    (rlUpdate c now)]
  simp [rlUpdate]

lemma requestMain_firstOk (ts : Transport) (now : Nat) (key : CacheKey)
    (cb : Bool) (c : ApiClient) (s : Nat) (d : JSVal)
    (hts : ts c.fetchCount = FetchOutcome.httpResp s d)
    (hok : 200 ≤ s ∧ s ≤ 299) :
    requestMain ts c now key cb =
      ⟨Except.ok d,
       (if cb then
          setCached { rlUpdate c now with fetchCount := c.fetchCount + 1 } key d now
        else { rlUpdate c now with fetchCount := c.fetchCount + 1 }),
       rlTrace c now ++ [Ev.fetchCall]⟩ := by
  unfold requestMain
  rw [applyRateLimit_eq]
  dsimp only
  rw [requestLoop_firstOk ts now key cb 0 (rlUpdate c now).maxRetries
    (rlUpdate c now) s d hts hok]
  rfl

lemma requestMain_firstThrow (ts : Transport) (now : Nat) (key : CacheKey)
    (cb : Bool) (c : ApiClient) (s : Nat) (d : JSVal)
    (hts : ts c.fetchCount = FetchOutcome.httpResp s d)
    (hnok : ¬(200 ≤ s ∧ s ≤ 299)) (h0 : 0 < s) (h5 : s < 500) (h429 : s ≠ 429) :
    requestMain ts c now key cb =
      ⟨Except.error (ReqError.apiError s (some d)),
       { rlUpdate c now with fetchCount := c.fetchCount + 1 },
       rlTrace c now ++ [Ev.fetchCall]⟩ := by
  unfold requestMain
  rw [applyRateLimit_eq]
  dsimp only
  rw [requestLoop_firstThrow ts now key cb 0 (rlUpdate c now).maxRetries
    (rlUpdate c now) s d hts hnok h0 h5 h429]
  rfl

lemma request_firstOk (ts : Transport) (c : ApiClient) (now : Nat)
    (endpoint : String) (options : ReqOptions) (s : Nat) (d : JSVal)
    (hcache : c.cache = [])
    (hts : ts c.fetchCount = FetchOutcome.httpResp s d)
    (hok : 200 ≤ s ∧ s ≤ 299) :
    request ts c now endpoint options =
      ⟨Except.ok d,
       (if cacheCheckMethod options then
          setCached { rlUpdate c now with fetchCount := c.fetchCount + 1 }
            (urlOf c.baseUrl endpoint, options) d now
        else { rlUpdate c now with fetchCount := c.fetchCount + 1 }),
       rlTrace c now ++ [Ev.fetchCall]⟩ := by
  rw [request_eq_main_of_empty ts c now endpoint options hcache,
      requestMain_firstOk ts now _ _ c s d hts hok]

lemma request_firstThrow (ts : Transport) (c : ApiClient) (now : Nat)
    (endpoint : String) (options : ReqOptions) (s : Nat) (d : JSVal)
    (hcache : c.cache = [])
    (hts : ts c.fetchCount = FetchOutcome.httpResp s d)
    (hnok : ¬(200 ≤ s ∧ s ≤ 299)) (h0 : 0 < s) (h5 : s < 500) (h429 : s ≠ 429) :
    request ts c now endpoint options =
      ⟨Except.error (ReqError.apiError s (some d)),
       { rlUpdate c now with fetchCount := c.fetchCount + 1 },
       rlTrace c now ++ [Ev.fetchCall]⟩ := by
  rw [request_eq_main_of_empty ts c now endpoint options hcache,
      requestMain_firstThrow ts now _ _ c s d hts hnok h0 h5 h429]

lemma makeJiraRequestFuel_pinned (ts : JiraTransport) (fuel : Nat)
    (st : JiraState) (endpoint : String) (options : ReqOptions) (v : Nat)
    (hfuel : 0 < fuel) (hv : v ≠ 0) :
    makeJiraRequestFuel ts fuel st endpoint options (some v) =
      ⟨jiraOneShot (ts st.callCount) v,
       { st with callCount := st.callCount + 1 },
       [⟨v, jiraUrl st.baseUrl v endpoint, endpoint, options⟩]⟩ := by
  cases fuel with
  | zero => omega
  | succ f =>
      unfold makeJiraRequestFuel jiraOneShot
      by_cases h410 : (ts st.callCount).status = 410 <;>
      by_cases h401 : (ts st.callCount).status = 401 <;>
      by_cases h404 : (ts st.callCount).status = 404 <;>
      by_cases hok : 200 ≤ (ts st.callCount).status ∧ (ts st.callCount).status ≤ 299 <;>
        simp [h410, h401, h404, hok, jsOrNat, jsNatFalsy, hv]

/-! Claim theorems. -/

/-- C1 (amended): for a client with no cached entries and a transport whose
every attempt fails with an HTTP status of at least 500 (the ServerError
classification), `ApiClient.request` performs exactly `maxRetries + 1` HTTP
attempts — the loop runs attempt indices 0 through `maxRetries` inclusive —
and then throws the ServerError-classified failure of the final attempt, an
`ApiError` carrying a status of at least 500. -/
theorem serverError_exhausts_attempts (c : ApiClient) (ts : Transport)
    (now : Nat) (endpoint : String) (options : ReqOptions)
    (hcache : c.cache = [])
    (hts : ∀ n, ∃ s b, 500 ≤ s ∧ ts n = FetchOutcome.httpResp s b) :
    (request ts c now endpoint options).trace.count Ev.fetchCall = c.maxRetries + 1 ∧
    ∃ s b, 500 ≤ s ∧
      (request ts c now endpoint options).result =
        Except.error (ReqError.apiError s (some b)) := by
  have hretr : ∀ n, retriableOutcome (ts n) = true := by
    intro n
    obtain ⟨s, b, hs, he⟩ := hts n
    have h1 : ¬(200 ≤ s ∧ s ≤ 299) := by omega
    have h2 : ¬(0 < s ∧ s < 500 ∧ s ≠ 429) := by omega
    simp [retriableOutcome, he, attemptOnce, noRetryThrow, h1, h2]
  rw [request_eq_main_of_empty ts c now endpoint options hcache,
      requestMain_allRetriable ts now _ _ c hretr]
  constructor
  · simp [List.count_append, rlTrace_count_fetch, failTrace_count]
  · obtain ⟨s, b, hs, he⟩ := hts (c.fetchCount + c.maxRetries)
    have h1 : ¬(200 ≤ s ∧ s ≤ 299) := by omega
    exact ⟨s, b, hs, by simp [lastErrorOf, he, attemptOnce, h1]⟩

/-- Witness: the default client (maxRetries 3) against a transport always
answering 500 performs 4 attempts and throws the 500 error. -/
theorem serverError_exhausts_attempts_witness :
    (request failing500 defaultClient 0 "/search" {}).trace.count Ev.fetchCall =
        defaultClient.maxRetries + 1 ∧
    ∃ s b, 500 ≤ s ∧
      (request failing500 defaultClient 0 "/search" {}).result =
        Except.error (ReqError.apiError s (some b)) :=
  serverError_exhausts_attempts defaultClient failing500 0 "/search" {} rfl
    (fun _ => ⟨500, JSVal.jobj 0, by omega, rfl⟩)

/-- Counterexample to C1 as stated: with the default `maxRetries = 3`, a
transport always answering 500 makes `request` perform 4 HTTP attempts,
not 3 — the loop bound `attempt <= this.maxRetries` is inclusive. -/
theorem serverError_attempt_count_cex :
    defaultClient.maxRetries = 3 ∧
    (request failing500 defaultClient 0 "/search" {}).trace.count Ev.fetchCall = 4 := by
  exact ⟨rfl, rfl⟩

/-- C5 (confirmed): a transport answering HTTP 401 on the first attempt
makes `ApiClient.request` perform exactly one HTTP attempt, sleep no
backoff, and throw the 401 error at once; `handleApiError` classifies a
401 as non-recoverable (the AuthError classification). -/
theorem http401_single_attempt (c : ApiClient) (ts : Transport) (now : Nat)
    (endpoint : String) (options : ReqOptions) (b : JSVal)
    (hcache : c.cache = [])
    (hts : ts c.fetchCount = FetchOutcome.httpResp 401 b) :
    (request ts c now endpoint options).trace.count Ev.fetchCall = 1 ∧
    backoffDelays (request ts c now endpoint options).trace = [] ∧
    (request ts c now endpoint options).result =
      Except.error (ReqError.apiError 401 (some b)) ∧
    (∀ m, (handleApiError 401 m).recoverable = false) := by
  rw [request_firstThrow ts c now endpoint options 401 b hcache hts
    (by omega) (by omega) (by omega) (by omega)]
  refine ⟨?_, ?_, rfl, fun m => rfl⟩
  · simp [List.count_append, rlTrace_count_fetch]
  · simp only [backoffDelays_append, rlTrace_backoffs]
    rfl

/-- Witness: the default client against a transport answering 401. -/
theorem http401_single_attempt_witness :
    (request always401 defaultClient 0 "/myself" {}).trace.count Ev.fetchCall = 1 ∧
    backoffDelays (request always401 defaultClient 0 "/myself" {}).trace = [] ∧
    (request always401 defaultClient 0 "/myself" {}).result =
      Except.error (ReqError.apiError 401 (some (JSVal.jobj 1))) ∧
    (∀ m, (handleApiError 401 m).recoverable = false) :=
  http401_single_attempt defaultClient always401 0 "/myself" {} (JSVal.jobj 1) rfl rfl

/-- Counterexample to C4 as stated: `handleApiError` marks an HTTP 404 as
recoverable — its `recoverable` flag is `status !== 401 && status !== 403`,
which is true at 404 — where the claim says the flag is false. -/
theorem notFound_recoverable_cex :
    (handleApiError 404 "Resource missing").recoverable = true := rfl

/-- C4 (amended): classifying an HTTP 404 through `handleApiError` yields
`recoverable = true` (only 401 and 403 produce `false`); nevertheless a 404
is never retried: `ApiClient.request` throws any error whose numeric
status is below 500 and different from 429 after a single attempt, with no
backoff sleep. -/
theorem notFound_classifier_and_no_retry (m : String) (c : ApiClient)
    (ts : Transport) (now : Nat) (endpoint : String) (options : ReqOptions)
    (b : JSVal)
    (hcache : c.cache = [])
    (hts : ts c.fetchCount = FetchOutcome.httpResp 404 b) :
    (handleApiError 404 m).recoverable = true ∧
    (request ts c now endpoint options).trace.count Ev.fetchCall = 1 ∧
    backoffDelays (request ts c now endpoint options).trace = [] ∧
    (request ts c now endpoint options).result =
      Except.error (ReqError.apiError 404 (some b)) := by
  rw [request_firstThrow ts c now endpoint options 404 b hcache hts
    (by omega) (by omega) (by omega) (by omega)]
  refine ⟨rfl, ?_, ?_, rfl⟩
  · simp [List.count_append, rlTrace_count_fetch]
  · simp only [backoffDelays_append, rlTrace_backoffs]
    rfl

/-- Witness: the default client against a transport answering 404. -/
theorem notFound_classifier_and_no_retry_witness :
    (handleApiError 404 "missing").recoverable = true ∧
    (request always404 defaultClient 0 "/issue/X-1" {}).trace.count Ev.fetchCall = 1 ∧
    backoffDelays (request always404 defaultClient 0 "/issue/X-1" {}).trace = [] ∧
    (request always404 defaultClient 0 "/issue/X-1" {}).result =
      Except.error (ReqError.apiError 404 (some (JSVal.jobj 2))) :=
  notFound_classifier_and_no_retry "missing" defaultClient always404 0 "/issue/X-1"
    {} (JSVal.jobj 2) rfl rfl

/-- C7 (confirmed): when every attempt fails with a retriable outcome, the
backoff delays slept by `ApiClient.request` are exactly
`retryDelay * 2 ^ n` for attempt indices n = 0, ..., maxRetries - 1. -/
theorem backoff_delays_exponential (c : ApiClient) (ts : Transport) (now : Nat)
    (endpoint : String) (options : ReqOptions)
    (hcache : c.cache = [])
    (hts : ∀ n, retriableOutcome (ts n) = true) :
    backoffDelays (request ts c now endpoint options).trace =
      (List.range c.maxRetries).map (fun n => c.retryDelay * 2 ^ n) := by
  rw [request_eq_main_of_empty ts c now endpoint options hcache,
      requestMain_allRetriable ts now _ _ c hts]
  show backoffDelays (rlTrace c now ++ failTrace c.retryDelay 0 (c.maxRetries + 1)) = _
  rw [backoffDelays_append, rlTrace_backoffs, failTrace_backoffs]
  simp

/-- Witness: with the defaults (retryDelay 1000, maxRetries 3) against a
transport always answering 500, the slept delays are 1000, 2000, 4000. -/
theorem backoff_delays_exponential_witness :
    backoffDelays (request failing500 defaultClient 0 "/search" {}).trace =
      (List.range defaultClient.maxRetries).map
        (fun n => defaultClient.retryDelay * 2 ^ n) :=
  backoff_delays_exponential defaultClient failing500 0 "/search" {} rfl
    (fun _ => rfl)


/-- Counterexample to C3 as stated: with caching enabled and two identical
GET calls 1000 ms apart (well within the default 5-minute TTL), a transport
whose response parses to an empty string — a falsy value — causes two
network calls: the falsy cached value fails the `if (cached)` truthiness
test, so the second call misses. -/
theorem cache_hit_falsy_cex :
    (request ok200falsy cachingClient 0 "/page" getOpts).trace.count Ev.fetchCall +
      (request ok200falsy
          (request ok200falsy cachingClient 0 "/page" getOpts).client
          1000 "/page" getOpts).trace.count Ev.fetchCall = 2 := by
  decide

/-- C3 (amended): with caching enabled, two `request` calls with an
identical GET descriptor within the cache TTL perform exactly one network
call, provided the first response's parsed value is truthy: the second
call returns the cached value with an empty event trace — no fetch and no
rate-limit wait, which runs only after the cache check.  A falsy parsed
value (null, false, 0, empty string) is stored but treated as a miss on
lookup. -/
theorem cache_hit_single_network_call (c : ApiClient) (ts : Transport)
    (t1 t2 : Nat) (endpoint : String) (options : ReqOptions) (d : JSVal)
    (hcE : c.cacheEnabled = true) (hcache : c.cache = []) (hfc : c.fetchCount = 0)
    (hm : options.method = some "GET")
    (hts : ts 0 = FetchOutcome.httpResp 200 d)
    (htr : d.truthy = true)
    (httl : t2 - t1 < c.cacheTimeout) :
    (request ts c t1 endpoint options).result = Except.ok d ∧
    (request ts (request ts c t1 endpoint options).client t2 endpoint
        options).result = Except.ok d ∧
    (request ts (request ts c t1 endpoint options).client t2 endpoint
        options).trace = [] ∧
    (request ts c t1 endpoint options).trace.count Ev.fetchCall +
      (request ts (request ts c t1 endpoint options).client t2 endpoint
          options).trace.count Ev.fetchCall = 1 := by
  have hcb : cacheCheckMethod options = true := by
    simp [cacheCheckMethod, hm]
  have hts0 : ts c.fetchCount = FetchOutcome.httpResp 200 d := by
    rw [hfc]; exact hts
  rw [request_firstOk ts c t1 endpoint options 200 d hcache hts0 (by omega)]
  rw [hcb]
  simp only [if_true]
  have hsecond :
      request ts
        (setCached { rlUpdate c t1 with fetchCount := c.fetchCount + 1 }
          (urlOf c.baseUrl endpoint, options) d t1) t2 endpoint options =
        ⟨Except.ok d,
         setCached { rlUpdate c t1 with fetchCount := c.fetchCount + 1 }
           (urlOf c.baseUrl endpoint, options) d t1, []⟩ := by
    simp [request, setCached, getCached, alistSet, alistFind, rlUpdate, hcE,
      hcb, htr, httl, hcache]
  rw [hsecond]
  simp [List.count_append, rlTrace_count_fetch]

/-- Witness: the caching client, a truthy 200 response, calls at 0 ms and
1000 ms. -/
theorem cache_hit_single_network_call_witness :
    (request ok200 cachingClient 0 "/page" getOpts).result =
        Except.ok (JSVal.jobj 7) ∧
    (request ok200 (request ok200 cachingClient 0 "/page" getOpts).client
        1000 "/page" getOpts).result = Except.ok (JSVal.jobj 7) ∧
    (request ok200 (request ok200 cachingClient 0 "/page" getOpts).client
        1000 "/page" getOpts).trace = [] ∧
    (request ok200 cachingClient 0 "/page" getOpts).trace.count Ev.fetchCall +
      (request ok200 (request ok200 cachingClient 0 "/page" getOpts).client
          1000 "/page" getOpts).trace.count Ev.fetchCall = 1 :=
  cache_hit_single_network_call cachingClient ok200 0 1000 "/page" getOpts
    (JSVal.jobj 7) rfl rfl rfl rfl rfl rfl (by decide)



/-- C6 (confirmed): a cache entry is returned by `getCached` exactly when
`now - storedAt < cacheTimeout`; a lookup that finds an entry at least
`cacheTimeout` old deletes it on the spot and returns nothing; and a repeat
of an identical idempotent GET after the TTL has elapsed performs a new
network call, returning the fresh response. -/
theorem cache_ttl_semantics :
    (∀ (c : ApiClient) (key : CacheKey) (e : CacheEntry) (now : Nat),
        c.cacheEnabled = true →
        alistFind c.cache key = some e →
        ((now - e.timestamp < c.cacheTimeout →
            getCached c key now = (some e.data, c)) ∧
         (c.cacheTimeout ≤ now - e.timestamp →
            getCached c key now =
              (none, { c with cache := alistErase c.cache key })))) ∧
    (∀ (c : ApiClient) (ts : Transport) (t1 t2 : Nat) (endpoint : String)
        (options : ReqOptions) (d1 d2 : JSVal),
        c.cacheEnabled = true → c.cache = [] → c.fetchCount = 0 →
        options.method = some "GET" →
        ts 0 = FetchOutcome.httpResp 200 d1 →
        ts 1 = FetchOutcome.httpResp 200 d2 →
        c.cacheTimeout ≤ t2 - t1 →
        (request ts (request ts c t1 endpoint options).client t2 endpoint
            options).trace.count Ev.fetchCall = 1 ∧
        (request ts (request ts c t1 endpoint options).client t2 endpoint
            options).result = Except.ok d2) := by
  constructor
  · intro c key e now hcE hfind
    constructor
    · intro hfresh
      simp [getCached, hcE, hfind, hfresh]
    · intro hstale
      have hnf : ¬(now - e.timestamp < c.cacheTimeout) := by omega
      simp [getCached, hcE, hfind, hnf]
  · intro c ts t1 t2 endpoint options d1 d2 hcE hcache hfc hm hts1 hts2 httl
    have hcb : cacheCheckMethod options = true := by
      simp [cacheCheckMethod, hm]
    have hts0 : ts c.fetchCount = FetchOutcome.httpResp 200 d1 := by
      rw [hfc]; exact hts1
    rw [request_firstOk ts c t1 endpoint options 200 d1 hcache hts0 (by omega)]
    rw [hcb]
    simp only [if_true]
    have hstale : ¬(t2 - t1 < c.cacheTimeout) := by omega
    have hts1' :
        ts ({ setCached { rlUpdate c t1 with fetchCount := c.fetchCount + 1 }
            (urlOf c.baseUrl endpoint, options) d1 t1 with
            cache := [] } : ApiClient).fetchCount =
          FetchOutcome.httpResp 200 d2 := by
      simp [setCached, rlUpdate, hcE, hfc]
      exact hts2
    have hsecond :
        request ts
          (setCached { rlUpdate c t1 with fetchCount := c.fetchCount + 1 }
            (urlOf c.baseUrl endpoint, options) d1 t1) t2 endpoint options =
          requestMain ts
            { setCached { rlUpdate c t1 with fetchCount := c.fetchCount + 1 }
                (urlOf c.baseUrl endpoint, options) d1 t1 with
              cache := [] } t2 (urlOf c.baseUrl endpoint, options) true := by
      simp [request, setCached, getCached, alistSet, alistFind, alistErase,
        rlUpdate, hcE, hcb, hcache, hstale]
    rw [hsecond,
      requestMain_firstOk ts t2 (urlOf c.baseUrl endpoint, options) true
        ({ setCached { rlUpdate c t1 with fetchCount := c.fetchCount + 1 }
            (urlOf c.baseUrl endpoint, options) d1 t1 with cache := [] })
        200 d2 hts1' (by omega)]
    simp [List.count_append, rlTrace_count_fetch]

/-- Witness: with the caching client and a TTL of 5 minutes, an entry
stored at 0 ms is returned at 1000 ms and gone at 300000 ms, and a second
GET at 300000 ms hits the network again and returns the new value. -/
theorem cache_ttl_semantics_witness :
    (getCached
        { cachingClient with
          cache := [(("https://jira.example/page", getOpts),
            { data := JSVal.jobj 7, timestamp := 0 })] }
        ("https://jira.example/page", getOpts) 1000 =
      (some (JSVal.jobj 7),
        { cachingClient with
          cache := [(("https://jira.example/page", getOpts),
            { data := JSVal.jobj 7, timestamp := 0 })] })) ∧
    (request ok200seq
        (request ok200seq cachingClient 0 "/page" getOpts).client 300000 "/page"
        getOpts).result = Except.ok (JSVal.jobj 8) := by
  constructor
  · exact (cache_ttl_semantics.1
      { cachingClient with
        cache := [(("https://jira.example/page", getOpts),
          { data := JSVal.jobj 7, timestamp := 0 })] }
      ("https://jira.example/page", getOpts)
      { data := JSVal.jobj 7, timestamp := 0 } 1000 rfl (by decide)).1 (by decide)
  · exact (cache_ttl_semantics.2 cachingClient ok200seq 0 300000 "/page" getOpts
      (JSVal.jobj 7) (JSVal.jobj 8) rfl rfl rfl rfl rfl rfl (by decide)).2

/-- Counterexample to C9 as stated: a client constructed without a cache
option has caching disabled — the constructor sets the cache to null
unless `enableCache` is passed truthy — so two identical GETs 1000 ms
apart (well within the claimed default TTL) both hit the network. -/
theorem cache_default_cex :
    defaultClient.cacheEnabled = false ∧
    (request ok200 defaultClient 0 "/page" getOpts).trace.count Ev.fetchCall +
      (request ok200 (request ok200 defaultClient 0 "/page" getOpts).client
          1000 "/page" getOpts).trace.count Ev.fetchCall = 2 := by
  exact ⟨rfl, by decide⟩

/-- C9 (amended): a client constructed without a cache option has response
caching disabled (`enableCache` is falsy by default, so the constructor
stores no cache map), and a repeated identical idempotent GET performs a
network call each time; the 5-minute default TTL (300000 ms) only governs
clients that enable caching explicitly. -/
theorem cache_disabled_by_default (rc : RawConfig) (ts : Transport)
    (t1 t2 : Nat) (endpoint : String) (options : ReqOptions) (d1 d2 : JSVal)
    (hnc : rc.enableCache = false)
    (hm : options.method = some "GET")
    (h0 : ts 0 = FetchOutcome.httpResp 200 d1)
    (h1 : ts 1 = FetchOutcome.httpResp 200 d2) :
    (mkApiClient rc).cacheEnabled = false ∧
    (mkApiClient rc).cacheTimeout = jsOrNat rc.cacheTimeout 300000 ∧
    (request ts (mkApiClient rc) t1 endpoint options).trace.count Ev.fetchCall = 1 ∧
    (request ts (request ts (mkApiClient rc) t1 endpoint options).client t2
        endpoint options).trace.count Ev.fetchCall = 1 ∧
    (request ts (request ts (mkApiClient rc) t1 endpoint options).client t2
        endpoint options).result = Except.ok d2 := by
  have hcE : (mkApiClient rc).cacheEnabled = false := by
    simp [mkApiClient, hnc]
  have h0' : ts (mkApiClient rc).fetchCount = FetchOutcome.httpResp 200 d1 := h0
  rw [request_firstOk ts (mkApiClient rc) t1 endpoint options 200 d1 rfl h0'
    (by omega)]
  have hnocache :
      (if cacheCheckMethod options then
          setCached
            { rlUpdate (mkApiClient rc) t1 with
              fetchCount := (mkApiClient rc).fetchCount + 1 }
            (urlOf (mkApiClient rc).baseUrl endpoint, options) d1 t1
        else
          { rlUpdate (mkApiClient rc) t1 with
            fetchCount := (mkApiClient rc).fetchCount + 1 }) =
        { rlUpdate (mkApiClient rc) t1 with
          fetchCount := (mkApiClient rc).fetchCount + 1 } := by
    simp [setCached, rlUpdate, hcE]
  rw [hnocache]
  have h1' :
      ts ({ rlUpdate (mkApiClient rc) t1 with
        fetchCount := (mkApiClient rc).fetchCount + 1 }).fetchCount =
        FetchOutcome.httpResp 200 d2 := by
    simp [rlUpdate, mkApiClient]
    exact h1
  rw [request_firstOk ts _ t2 endpoint options 200 d2 (by simp [rlUpdate, mkApiClient]) h1'
    (by omega)]
  refine ⟨hcE, by simp [mkApiClient], ?_, ?_, ?_⟩
  · simp [List.count_append, rlTrace_count_fetch]
  · simp [List.count_append, rlTrace_count_fetch]
  · simp [setCached, rlUpdate, hcE]

/-- Witness: the default client, two GETs at 0 ms and 1000 ms, each
performing its own network call. -/
theorem cache_disabled_by_default_witness :
    (mkApiClient { baseUrl := "https://jira.example" }).cacheEnabled = false ∧
    (mkApiClient { baseUrl := "https://jira.example" }).cacheTimeout =
      jsOrNat ({ baseUrl := "https://jira.example" } : RawConfig).cacheTimeout
        300000 ∧
    (request ok200seq (mkApiClient { baseUrl := "https://jira.example" }) 0
        "/page" getOpts).trace.count Ev.fetchCall = 1 ∧
    (request ok200seq
        (request ok200seq (mkApiClient { baseUrl := "https://jira.example" }) 0
            "/page" getOpts).client 1000 "/page" getOpts).trace.count
        Ev.fetchCall = 1 ∧
    (request ok200seq
        (request ok200seq (mkApiClient { baseUrl := "https://jira.example" }) 0
            "/page" getOpts).client 1000 "/page" getOpts).result =
      Except.ok (JSVal.jobj 8) :=
  cache_disabled_by_default { baseUrl := "https://jira.example" } ok200seq 0 1000
    "/page" getOpts (JSVal.jobj 7) (JSVal.jobj 8) rfl rfl rfl rfl



/-- C2 (confirmed): a `makeJiraRequest` issued without a pinned version
while the instance default is 3, on receiving a 410, permanently rewrites
the instance default `apiVersion` to 2 and reissues the original request
exactly once, with the same endpoint and options and only the version
segment of the URL changed; the outcome of that single version-2 retry is
what the caller sees — a second 410 is thrown with no further fallback
tier, and a 2xx is returned as the parsed body. -/
theorem gone_downgrades_and_retries_once (ts : JiraTransport) (st : JiraState)
    (endpoint : String) (options : ReqOptions)
    (hv : st.apiVersion = 3)
    (h1 : (ts st.callCount).status = 410) :
    (makeJiraRequest ts st endpoint options none).state.apiVersion = 2 ∧
    (makeJiraRequest ts st endpoint options none).log =
      [⟨3, jiraUrl st.baseUrl 3 endpoint, endpoint, options⟩,
       ⟨2, jiraUrl st.baseUrl 2 endpoint, endpoint, options⟩] ∧
    ((ts (st.callCount + 1)).status = 410 →
      (makeJiraRequest ts st endpoint options none).result =
        Except.error (JiraError.gone 2 (ts (st.callCount + 1)).textBody)) ∧
    (200 ≤ (ts (st.callCount + 1)).status ∧ (ts (st.callCount + 1)).status ≤ 299 →
      (makeJiraRequest ts st endpoint options none).result =
        Except.ok (ts (st.callCount + 1)).jsonBody) := by
  have hfirst :
      makeJiraRequest ts st endpoint options none =
        ⟨jiraOneShot (ts (st.callCount + 1)) 2,
         { baseUrl := st.baseUrl, apiVersion := 2, callCount := st.callCount + 2 },
         [⟨3, jiraUrl st.baseUrl 3 endpoint, endpoint, options⟩,
          ⟨2, jiraUrl st.baseUrl 2 endpoint, endpoint, options⟩]⟩ := by
    unfold makeJiraRequest makeJiraRequestFuel
    dsimp only
    rw [makeJiraRequestFuel_pinned ts 1 _ endpoint options 2 (by omega) (by omega)]
    simp [jsOrNat, jsNatFalsy, hv, h1]
  rw [hfirst]
  refine ⟨rfl, rfl, ?_, ?_⟩
  · intro h2
    simp [jiraOneShot, h2]
  · intro h2
    have hne410 : (ts (st.callCount + 1)).status ≠ 410 := by omega
    have hne401 : (ts (st.callCount + 1)).status ≠ 401 := by omega
    have hne404 : (ts (st.callCount + 1)).status ≠ 404 := by omega
    simp [jiraOneShot, hne410, hne401, hne404, h2]

/-- Witness: a fresh server (default version 3) against a transport whose
first answer is 410 and whose second is 200. -/
theorem gone_downgrades_and_retries_once_witness :
    (makeJiraRequest jira410then200 jiraFresh "/search" getOpts none).state.apiVersion
        = 2 ∧
    (makeJiraRequest jira410then200 jiraFresh "/search" getOpts none).log =
      [⟨3, jiraUrl jiraFresh.baseUrl 3 "/search", "/search", getOpts⟩,
       ⟨2, jiraUrl jiraFresh.baseUrl 2 "/search", "/search", getOpts⟩] ∧
    ((jira410then200 (jiraFresh.callCount + 1)).status = 410 →
      (makeJiraRequest jira410then200 jiraFresh "/search" getOpts none).result =
        Except.error
          (JiraError.gone 2 (jira410then200 (jiraFresh.callCount + 1)).textBody)) ∧
    (200 ≤ (jira410then200 (jiraFresh.callCount + 1)).status ∧
        (jira410then200 (jiraFresh.callCount + 1)).status ≤ 299 →
      (makeJiraRequest jira410then200 jiraFresh "/search" getOpts none).result =
        Except.ok (jira410then200 (jiraFresh.callCount + 1)).jsonBody) :=
  gone_downgrades_and_retries_once jira410then200 jiraFresh "/search" getOpts
    rfl rfl

/-- C10 (confirmed): a `makeJiraRequest` call carrying an explicit, pinned
API version never triggers the 410 fallback: the Gone error is thrown to
the caller after a single request and the instance default `apiVersion` is
left untouched. -/
theorem pinned_version_no_fallback (ts : JiraTransport) (st : JiraState)
    (endpoint : String) (options : ReqOptions) (v : Nat)
    (hv : v ≠ 0)
    (h1 : (ts st.callCount).status = 410) :
    (makeJiraRequest ts st endpoint options (some v)).result =
      Except.error (JiraError.gone v (ts st.callCount).textBody) ∧
    (makeJiraRequest ts st endpoint options (some v)).state.apiVersion =
      st.apiVersion ∧
    (makeJiraRequest ts st endpoint options (some v)).log.length = 1 := by
  unfold makeJiraRequest
  rw [makeJiraRequestFuel_pinned ts 2 st endpoint options v (by omega) hv]
  refine ⟨?_, rfl, rfl⟩
  simp [jiraOneShot, h1]

/-- Witness: a fresh server and a pinned version 3; the 410 is thrown, the
default stays 3, and one request is made. -/
theorem pinned_version_no_fallback_witness :
    (makeJiraRequest jiraAll410 jiraFresh "/search" getOpts (some 3)).result =
      Except.error (JiraError.gone 3 (jiraAll410 jiraFresh.callCount).textBody) ∧
    (makeJiraRequest jiraAll410 jiraFresh "/search" getOpts (some 3)).state.apiVersion
        = jiraFresh.apiVersion ∧
    (makeJiraRequest jiraAll410 jiraFresh "/search" getOpts (some 3)).log.length
        = 1 :=
  pinned_version_no_fallback jiraAll410 jiraFresh "/search" getOpts 3
    (by omega) rfl

/-- C8 (confirmed): starting from the fresh state, one call of
`checkV2ApiAvailability` performs exactly one probe and stores its boolean
result — `false` when the probe throws — and a second call returns that
cached boolean with the state untouched; in general, any call on a state
whose cache is set returns the cached boolean and performs no probe. -/
theorem probe_once_then_cached (ts : Nat → ProbeOutcome) (st : ConfluenceState)
    (hfresh : st.v2ApiAvailable = none) :
    (checkV2ApiAvailability ts st).2.probeCount = st.probeCount + 1 ∧
    (checkV2ApiAvailability ts st).2.v2ApiAvailable =
      some (checkV2ApiAvailability ts st).1 ∧
    checkV2ApiAvailability ts (checkV2ApiAvailability ts st).2 =
      ((checkV2ApiAvailability ts st).1, (checkV2ApiAvailability ts st).2) ∧
    (∀ m, ts st.probeCount = ProbeOutcome.fetchThrow m →
      (checkV2ApiAvailability ts st).1 = false) ∧
    (∀ (st2 : ConfluenceState) (b : Bool), st2.v2ApiAvailable = some b →
      checkV2ApiAvailability ts st2 = (b, st2)) := by
  have hcached : ∀ (st2 : ConfluenceState) (b : Bool),
      st2.v2ApiAvailable = some b → checkV2ApiAvailability ts st2 = (b, st2) := by
    intro st2 b hb
    unfold checkV2ApiAvailability
    rw [hb]
  refine ⟨?_, ?_, ?_, ?_, hcached⟩ <;>
    unfold checkV2ApiAvailability <;> rw [hfresh]
  · cases ts st.probeCount <;> rfl
  · cases ts st.probeCount <;> rfl
  · cases hp : ts st.probeCount <;>
      simp [checkV2ApiAvailability]
  · intro m hm
    rw [hm]

/-- Witness: a fresh state against a throwing probe — the first call
probes once and stores `false`, the second returns the cached `false`. -/
theorem probe_once_then_cached_witness :
    (checkV2ApiAvailability probeThrow confluenceFresh).2.probeCount =
        confluenceFresh.probeCount + 1 ∧
    (checkV2ApiAvailability probeThrow confluenceFresh).2.v2ApiAvailable =
      some (checkV2ApiAvailability probeThrow confluenceFresh).1 ∧
    checkV2ApiAvailability probeThrow
        (checkV2ApiAvailability probeThrow confluenceFresh).2 =
      ((checkV2ApiAvailability probeThrow confluenceFresh).1,
        (checkV2ApiAvailability probeThrow confluenceFresh).2) ∧
    (∀ m, probeThrow confluenceFresh.probeCount = ProbeOutcome.fetchThrow m →
      (checkV2ApiAvailability probeThrow confluenceFresh).1 = false) ∧
    (∀ (st2 : ConfluenceState) (b : Bool), st2.v2ApiAvailable = some b →
      checkV2ApiAvailability probeThrow st2 = (b, st2)) :=
  probe_once_then_cached probeThrow confluenceFresh rfl


end AtlassianMcp
